import Mathlib

/-!
Shallow embedding of `compatibility_lib/graph.py`: the labeled-transition-system
data model (Transition, State, Graph) of the protocol compatibility library.

Python lists become Lean `List`s, `None` becomes `Option.none`, and a method
that can raise an exception is embedded as `Except String` (the error string is
the exception's message; Python `IndexError` from `list[1]` on a too-short list
is embedded as the error string "IndexError: list index out of range").
Diagnostic logging has no effect on the data and is dropped.
-/

/-- The `TransitionType` enumeration of `graph.py`. -/
inductive TransitionType where
  | TAU
  | EMISSION
  | RECEPTION
  deriving DecidableEq, Repr

/-- The `StateType` enumeration of `graph.py`. -/
inductive StateType where
  | INIT
  | FINAL
  | NORMAL
  deriving DecidableEq, Repr

/-- The `Transition` class: name, type, next-state name, parameter tokens. -/
structure Transition where
  name : String
  type : TransitionType
  next_state : String
  params : List String
  deriving DecidableEq, Repr

/-- Python substring prefix test on character lists: `charsPrefix n h` is true
iff the list `n` is a prefix of `h` (the empty list is a prefix of anything). -/
def charsPrefix : List Char → List Char → Bool
  | [], _ => true
  | _ :: _, [] => false
  | a :: as, b :: bs => a = b && charsPrefix as bs

/-- Occurrence of `needle` anywhere inside the second list, as Python's
`needle in hay` substring test: true iff some suffix of the haystack starts
with `needle`. -/
def charsOccurs (needle : List Char) : List Char → Bool
  | [] => charsPrefix needle []
  | c :: rest => charsPrefix needle (c :: rest) || charsOccurs needle rest

/-- Python's `needle in hay` substring-containment test on strings. -/
def pyInStr (needle hay : String) : Bool :=
  charsOccurs needle.data hay.data

/-- Helper for `pySplitColon`: the first argument accumulates the reversed
current chunk, the second is the remaining input. -/
def splitColonAux : List Char → List Char → List (List Char)
  | acc, [] => [acc.reverse]
  | acc, c :: rest =>
    if c = ':' then acc.reverse :: splitColonAux [] rest
    else splitColonAux (c :: acc) rest

/-- Python's `s.split(":")`: the chunks of `s` between the colons; a string
with no colon yields the one-element list `[s]`. -/
def pySplitColon (s : String) : List String :=
  (splitColonAux [] s.data).map (fun cs => String.mk cs)

/-- Python's `param.split(":")[1]` without the indexing error: `some` of the
piece after the first colon, or `none` when the token has no colon. -/
def pyTypeOf (p : String) : Option String :=
  (pySplitColon p).get? 1

/-- The `Transition.__init__` constructor: stores the four attributes and
raises when a TAU transition is given a non-empty parameter list. -/
def Transition.construct (name : String) (type : TransitionType)
    (next_state : String) (params : List String) : Except String Transition :=
  if type = TransitionType.TAU ∧ params ≠ [] then
    Except.error "Illegal transition. tau has no parameters list"
  else
    Except.ok ⟨name, type, next_state, params⟩

/-- The loop of `Transition.get_param_type`: scans the parameter tokens in
order, and on each token containing `param_name` as a substring overwrites the
accumulator with `token.split(\x22:\x22)[1]` (raising IndexError when the token has
no colon). There is no `break`, so a later match overwrites an earlier one. -/
def get_param_type_loop (param_name : String) :
    List String → Option String → Except String (Option String)
  | [], acc => Except.ok acc
  | p :: rest, acc =>
    if pyInStr param_name p then
      match pyTypeOf p with
      | some ty => get_param_type_loop param_name rest (some ty)
      | none => Except.error "IndexError: list index out of range"
    else
      get_param_type_loop param_name rest acc

/-- `Transition.get_param_type`: embeds the Python method, starting the loop
accumulator at `None`. -/
def Transition.get_param_type (t : Transition) (param_name : String) :
    Except String (Option String) :=
  get_param_type_loop param_name t.params none

/-- The loop of `Transition.get_data_types`: scans the tokens in order and
appends `token.split(\x22:\x22)[1]` to the accumulator unless already present
(raising IndexError when the token has no colon). -/
def get_data_types_loop : List String → List String → Except String (List String)
  | [], acc => Except.ok acc
  | p :: rest, acc =>
    match pyTypeOf p with
    | some ty =>
      if ty ∈ acc then get_data_types_loop rest acc
      else get_data_types_loop rest (acc ++ [ty])
    | none => Except.error "IndexError: list index out of range"

/-- `Transition.get_data_types`: embeds the Python method, starting the loop
accumulator at the empty list. -/
def Transition.get_data_types (t : Transition) : Except String (List String) :=
  get_data_types_loop t.params []

/-- The `State` class: name, type, incoming and outgoing transition lists. -/
structure State where
  name : String
  type : StateType
  incoming : List Transition
  outgoing : List Transition
  deriving DecidableEq, Repr

/-- The `State.__init__` constructor: `None` arguments default to the empty
list; raises when an INIT state is given a non-empty incoming list or a FINAL
state a non-empty outgoing list. -/
def State.construct (name : String) (type : StateType)
    (incoming : Option (List Transition)) (outgoing : Option (List Transition)) :
    Except String State :=
  let inc := incoming.getD []
  let out := outgoing.getD []
  if type = StateType.INIT ∧ inc ≠ [] then
    Except.error "Initial state does not have incoming transition"
  else if type = StateType.FINAL ∧ out ≠ [] then
    Except.error "Final state does not have outgoing transition"
  else
    Except.ok ⟨name, type, inc, out⟩

/-- `State.add_incoming_transition`: no-op on `None`, otherwise appends with
no role check. Never raises. -/
def State.add_incoming_transition (s : State) (t : Option Transition) : State :=
  match t with
  | none => s
  | some tr => { s with incoming := s.incoming ++ [tr] }

/-- `State.add_outgoing_transition`: no-op on `None`; otherwise raises on a
FINAL state and appends on any other state. -/
def State.add_outgoing_transition (s : State) (t : Option Transition) :
    Except String State :=
  match t with
  | none => Except.ok s
  | some tr =>
    if s.type = StateType.FINAL then
      Except.error "Final state does not have outgoing transition"
    else
      Except.ok { s with outgoing := s.outgoing ++ [tr] }

/-- The search loop shared by the two transition lookups: first transition
whose name equals the argument exactly (the Python loop `break`s on the first
match), `None` when there is none. -/
def find_transition_loop (name : String) : List Transition → Option Transition
  | [] => none
  | tr :: rest => if name = tr.name then some tr else find_transition_loop name rest

/-- `State.get_incoming_transtition` (source spelling): `None` on an INIT
state regardless of the list, otherwise the first exact-name match. -/
def State.get_incoming_transtition (s : State) (name : String) : Option Transition :=
  if s.type ≠ StateType.INIT then find_transition_loop name s.incoming
  else none

/-- `State.get_outgoing_transtition` (source spelling): `None` on a FINAL
state regardless of the list, otherwise the first exact-name match. -/
def State.get_outgoing_transtition (s : State) (name : String) : Option Transition :=
  if s.type ≠ StateType.FINAL then find_transition_loop name s.outgoing
  else none

/-- `State.get_incoming_transitions_list`: the incoming list itself. -/
def State.get_incoming_transitions_list (s : State) : List Transition :=
  s.incoming

/-- `State.get_outgoing_transitions_list`: the outgoing list itself. -/
def State.get_outgoing_transitions_list (s : State) : List Transition :=
  s.outgoing

/-- `State.get_outgoing_emission_list`: the outgoing transitions of type
EMISSION, in their original order. -/
def State.get_outgoing_emission_list (s : State) : List Transition :=
  s.outgoing.filter (fun tr => decide (tr.type = TransitionType.EMISSION))

/-- `State.get_outgoing_reception_list`: the outgoing transitions of type
RECEPTION, in their original order. -/
def State.get_outgoing_reception_list (s : State) : List Transition :=
  s.outgoing.filter (fun tr => decide (tr.type = TransitionType.RECEPTION))

/-- `State.get_outgoing_tau_list`: the outgoing transitions of type TAU, in
their original order. -/
def State.get_outgoing_tau_list (s : State) : List Transition :=
  s.outgoing.filter (fun tr => decide (tr.type = TransitionType.TAU))

/-- `State.get_imcoming_tau_list` (source spelling): the incoming transitions
of type TAU, in their original order. -/
def State.get_imcoming_tau_list (s : State) : List Transition :=
  s.incoming.filter (fun tr => decide (tr.type = TransitionType.TAU))

/-- `State.get_num_of_incoming_transistions` (source spelling): length of the
incoming list. -/
def State.get_num_of_incoming_transistions (s : State) : Nat :=
  s.incoming.length

/-- `State.get_num_of_outgoing_transitions`: length of the outgoing list. -/
def State.get_num_of_outgoing_transitions (s : State) : Nat :=
  s.outgoing.length

/-- `State.is_final_state`: whether the state's type is FINAL. -/
def State.is_final_state (s : State) : Bool :=
  s.type = StateType.FINAL

/-- `State.is_initial_state`: whether the state's type is INIT. -/
def State.is_initial_state (s : State) : Bool :=
  s.type = StateType.INIT

/-- `State.get_name`: the state's name. -/
def State.get_name (s : State) : String :=
  s.name

/-- The `Graph` class: a name and the list of states. -/
structure Graph where
  name : String
  states : List State
  deriving DecidableEq, Repr

/-- The `Graph.__init__` constructor: a `None` state list defaults to empty. -/
def Graph.construct (name : String) (states : Option (List State)) : Graph :=
  ⟨name, states.getD []⟩

/-- `Graph.add_state`: appends the state unless it is `None`. -/
def Graph.add_state (g : Graph) (s : Option State) : Graph :=
  match s with
  | none => g
  | some st => { g with states := g.states ++ [st] }

/-- The search loop of `Graph.get_state`: first state whose name equals the
argument exactly (the Python loop `break`s on the first match). -/
def find_state_loop (state_name : String) : List State → Option State
  | [] => none
  | st :: rest =>
    if state_name = st.get_name then some st else find_state_loop state_name rest

/-- `Graph.get_state`: first state with a matching name, `None` when absent. -/
def Graph.get_state (g : Graph) (state_name : String) : Option State :=
  find_state_loop state_name g.states

/-- `Graph.get_states_list`: the state list itself. -/
def Graph.get_states_list (g : Graph) : List State :=
  g.states

/-- A sequence of `add_outgoing_transition` calls as performed by a caller
that catches (or never sees) the exception: a failing call leaves the state
object unchanged, a successful call replaces it. -/
def apply_outgoing_calls : State → List (Option Transition) → State
  | s, [] => s
  | s, t :: ts =>
    apply_outgoing_calls
      (match s.add_outgoing_transition t with
       | Except.ok s' => s'
       | Except.error _ => s) ts

/-- Spec-side description of what `get_param_type` actually computes: the
type piece of the LAST token containing `param_name` as a substring, `none`
when no token matches. -/
def last_substring_match_type (param_name : String) : List String → Option String
  | [] => none
  | p :: rest =>
    match last_substring_match_type param_name rest with
    | some ty => some ty
    | none => if pyInStr param_name p then pyTypeOf p else none

/-- Spec-side first-seen-order deduplication, generalized over the list of
values already seen (the accumulator). -/
def first_seen_dedup_from : List String → List String → List String
  | acc, [] => acc
  | acc, x :: xs =>
    if x ∈ acc then first_seen_dedup_from acc xs
    else first_seen_dedup_from (acc ++ [x]) xs

/-- Spec-side first-seen-order deduplication of a list of strings. -/
def first_seen_dedup (l : List String) : List String :=
  first_seen_dedup_from [] l

/-- The declared type of each well-formed parameter token, in order. -/
def declared_types (ps : List String) : List String :=
  ps.filterMap pyTypeOf

/-- Helper: the accumulator behaviour of the get_param_type loop — a later
match overwrites the accumulator, no match leaves it. -/
def overwrite_acc : Option String → Option String → Option String
  | some ty, _ => some ty
  | none, acc => acc

theorem filter_types_perm (l : List Transition) :
    (l.filter (fun tr => decide (tr.type = TransitionType.EMISSION)) ++
     (l.filter (fun tr => decide (tr.type = TransitionType.RECEPTION)) ++
      l.filter (fun tr => decide (tr.type = TransitionType.TAU)))).Perm l := by
  induction l with
  | nil => simp
  | cons t rest ih =>
    cases h : t.type with
    | EMISSION =>
      rw [List.filter_cons_of_pos, List.filter_cons_of_neg, List.filter_cons_of_neg]
      · exact ih.cons t
      · simp [h]
      · simp [h]
      · simp [h]
    | RECEPTION =>
      rw [List.filter_cons_of_neg, List.filter_cons_of_pos, List.filter_cons_of_neg]
      · exact List.Perm.trans List.perm_middle (ih.cons t)
      · simp [h]
      · simp [h]
      · simp [h]
    | TAU =>
      rw [List.filter_cons_of_neg, List.filter_cons_of_neg, List.filter_cons_of_pos]
      · exact List.Perm.trans
          ((List.Perm.append_left _ List.perm_middle).trans List.perm_middle) (ih.cons t)
      · simp [h]
      · simp [h]
      · simp [h]

/-- C3: for every State, the emission, reception and internal (tau) outgoing
lists each preserve the order of the outgoing list (they are sublists), are
pairwise disjoint, and their concatenation is a permutation of (multiset-equal
to) the full outgoing transitions list. -/
theorem outgoing_classification_partition (s : State) :
    (s.get_outgoing_emission_list.Sublist s.get_outgoing_transitions_list ∧
     s.get_outgoing_reception_list.Sublist s.get_outgoing_transitions_list ∧
     s.get_outgoing_tau_list.Sublist s.get_outgoing_transitions_list) ∧
    (∀ t, t ∈ s.get_outgoing_emission_list →
       t ∉ s.get_outgoing_reception_list ∧ t ∉ s.get_outgoing_tau_list) ∧
    (∀ t, t ∈ s.get_outgoing_reception_list → t ∉ s.get_outgoing_tau_list) ∧
    (s.get_outgoing_emission_list ++ s.get_outgoing_reception_list ++
      s.get_outgoing_tau_list).Perm s.get_outgoing_transitions_list := by
  refine ⟨⟨List.filter_sublist _, List.filter_sublist _, List.filter_sublist _⟩, ?_, ?_, ?_⟩
  · intro t ht
    have hE : t.type = TransitionType.EMISSION := by
      have := (List.mem_filter.mp ht).2
      simpa using this
    constructor
    · intro hc
      have hR : t.type = TransitionType.RECEPTION := by
        have := (List.mem_filter.mp hc).2
        simpa using this
      rw [hE] at hR
      cases hR
    · intro hc
      have hT : t.type = TransitionType.TAU := by
        have := (List.mem_filter.mp hc).2
        simpa using this
      rw [hE] at hT
      cases hT
  · intro t ht hc
    have hR : t.type = TransitionType.RECEPTION := by
      have := (List.mem_filter.mp ht).2
      simpa using this
    have hT : t.type = TransitionType.TAU := by
      have := (List.mem_filter.mp hc).2
      simpa using this
    rw [hR] at hT
    cases hT
  · rw [List.append_assoc]
    exact filter_types_perm s.outgoing

/-- Helper: on a FINAL state every sequence of outgoing-add calls leaves the
state unchanged (a None argument is a no-op, a present one raises). -/
theorem apply_outgoing_calls_final (s : State) (h : s.type = StateType.FINAL) :
    ∀ ts, apply_outgoing_calls s ts = s := by
  intro ts
  induction ts with
  | nil => rfl
  | cons t ts ih =>
    cases t with
    | none =>
      rw [apply_outgoing_calls]
      simpa [State.add_outgoing_transition] using ih
    | some tr =>
      rw [apply_outgoing_calls]
      simpa [State.add_outgoing_transition, h] using ih

/-- C4: a successfully constructed FINAL state has an empty outgoing list, the
list stays empty after any sequence of add_outgoing_transition calls, and any
such call with a present transition on the resulting state still fails with
the construction error. -/
theorem final_state_outgoing_stays_empty (nm : String)
    (inc out : Option (List Transition)) (s : State)
    (h : State.construct nm StateType.FINAL inc out = Except.ok s)
    (ts : List (Option Transition)) :
    (apply_outgoing_calls s ts).get_outgoing_transitions_list = [] ∧
    ∀ t : Transition,
      (apply_outgoing_calls s ts).add_outgoing_transition (some t) =
        Except.error "Final state does not have outgoing transition" := by
  have hs : s = ⟨nm, StateType.FINAL, inc.getD [], []⟩ := by
    by_cases hout : out.getD [] = []
    · simp [State.construct, hout] at h
      exact h.symm
    · simp [State.construct, hout] at h
  subst hs
  rw [apply_outgoing_calls_final _ rfl]
  constructor
  · rfl
  · intro t
    simp [State.add_outgoing_transition]

/-- C5: constructing a TAU (internal) transition with a non-empty parameter
list fails with the construction error, and every successfully constructed
transition whose type is TAU has an empty parameter list. -/
theorem internal_transition_requires_empty_params :
    (∀ (nm ns : String) (ps : List String), ps ≠ [] →
        Transition.construct nm TransitionType.TAU ns ps =
          Except.error "Illegal transition. tau has no parameters list") ∧
    (∀ (nm ns : String) (k : TransitionType) (ps : List String) (t : Transition),
        Transition.construct nm k ns ps = Except.ok t →
        t.type = TransitionType.TAU → t.params = []) := by
  constructor
  · intro nm ns ps hps
    simp [Transition.construct, hps]
  · intro nm ns k ps t h htau
    by_cases hk : k = TransitionType.TAU ∧ ps ≠ []
    · simp [Transition.construct, hk] at h
    · simp [Transition.construct, hk] at h
      subst h
      simp only [not_and, not_not] at hk
      exact hk htau

/-- C6: State construction fails with the role-specific construction error on
an INIT state with a non-empty incoming list or a FINAL state with a non-empty
outgoing list, and succeeds for every role when the lists are empty or
defaulted (None). -/
theorem state_construct_role_validation :
    (∀ (nm : String) (inc : List Transition) (out : Option (List Transition)),
        inc ≠ [] →
        State.construct nm StateType.INIT (some inc) out =
          Except.error "Initial state does not have incoming transition") ∧
    (∀ (nm : String) (inc : Option (List Transition)) (out : List Transition),
        out ≠ [] →
        State.construct nm StateType.FINAL inc (some out) =
          Except.error "Final state does not have outgoing transition") ∧
    (∀ (nm : String) (role : StateType),
        State.construct nm role none none = Except.ok ⟨nm, role, [], []⟩) ∧
    (∀ (nm : String) (role : StateType),
        State.construct nm role (some []) (some []) = Except.ok ⟨nm, role, [], []⟩) := by
  refine ⟨?_, ?_, ?_, ?_⟩
  · intro nm inc out h
    simp [State.construct, h]
  · intro nm inc out h
    simp [State.construct, h]
  · intro nm role
    simp [State.construct]
  · intro nm role
    simp [State.construct]

/-- C6 witness: concrete instances of the four parts of the construction
validation theorem. -/
theorem state_construct_role_validation_witness :
    State.construct "i" StateType.INIT
        (some [⟨"t", TransitionType.EMISSION, "x", []⟩]) none =
      Except.error "Initial state does not have incoming transition" ∧
    State.construct "f" StateType.FINAL none
        (some [⟨"t", TransitionType.EMISSION, "x", []⟩]) =
      Except.error "Final state does not have outgoing transition" ∧
    State.construct "n" StateType.NORMAL none none =
      Except.ok ⟨"n", StateType.NORMAL, [], []⟩ ∧
    State.construct "i2" StateType.INIT (some []) (some []) =
      Except.ok ⟨"i2", StateType.INIT, [], []⟩ := by
  refine ⟨?_, ?_, ?_, ?_⟩
  · exact state_construct_role_validation.1 "i"
      [⟨"t", TransitionType.EMISSION, "x", []⟩] none (by simp)
  · exact state_construct_role_validation.2.1 "f" none
      [⟨"t", TransitionType.EMISSION, "x", []⟩] (by simp)
  · exact state_construct_role_validation.2.2.1 "n" StateType.NORMAL
  · exact state_construct_role_validation.2.2.2 "i2" StateType.INIT

/-- C4 witness: a FINAL state constructed with defaulted lists still has an
empty outgoing list after a sequence of add calls (present transitions, a
None, and another present transition), and a further present call fails. -/
theorem final_state_outgoing_stays_empty_witness :
    (apply_outgoing_calls ⟨"sF", StateType.FINAL, [], []⟩
        [some ⟨"t1", TransitionType.EMISSION, "x", []⟩, none,
         some ⟨"t2", TransitionType.TAU, "y", []⟩]).get_outgoing_transitions_list = [] ∧
    (apply_outgoing_calls ⟨"sF", StateType.FINAL, [], []⟩
        [some ⟨"t1", TransitionType.EMISSION, "x", []⟩, none,
         some ⟨"t2", TransitionType.TAU, "y", []⟩]).add_outgoing_transition
        (some ⟨"t3", TransitionType.RECEPTION, "z", []⟩) =
      Except.error "Final state does not have outgoing transition" := by
  have h := final_state_outgoing_stays_empty "sF" none none
      ⟨"sF", StateType.FINAL, [], []⟩ rfl
      [some ⟨"t1", TransitionType.EMISSION, "x", []⟩, none,
       some ⟨"t2", TransitionType.TAU, "y", []⟩]
  exact ⟨h.1, h.2 ⟨"t3", TransitionType.RECEPTION, "z", []⟩⟩

/-- C5 witness: a concrete TAU transition with one parameter is rejected, and
a concrete successfully constructed TAU transition has empty parameters. -/
theorem internal_transition_requires_empty_params_witness :
    Transition.construct "tau1" TransitionType.TAU "s1" ["a:int"] =
      Except.error "Illegal transition. tau has no parameters list" ∧
    (⟨"tau2", TransitionType.TAU, "s2", []⟩ : Transition).params = [] := by
  constructor
  · exact internal_transition_requires_empty_params.1 "tau1" "s1" ["a:int"] (by simp)
  · exact internal_transition_requires_empty_params.2 "tau2" "s2" TransitionType.TAU []
      ⟨"tau2", TransitionType.TAU, "s2", []⟩ rfl rfl

/-- C10: on an INIT state, adding a present incoming transition always
succeeds and increases the incoming count by one, yet the by-name incoming
lookup still returns None for every name. -/
theorem initial_state_incoming_counted_but_unreachable (s : State)
    (h : s.type = StateType.INIT) (t : Transition) :
    (s.add_incoming_transition (some t)).get_num_of_incoming_transistions =
      s.get_num_of_incoming_transistions + 1 ∧
    ∀ n, (s.add_incoming_transition (some t)).get_incoming_transtition n = none := by
  constructor
  · simp [State.add_incoming_transition, State.get_num_of_incoming_transistions]
  · intro n
    simp [State.add_incoming_transition, State.get_incoming_transtition, h]

/-- C10 witness: adding a matching-named transition to a concrete INIT state
bumps the count to 1 while the lookup of exactly that name returns None. -/
theorem initial_state_incoming_counted_but_unreachable_witness :
    (State.add_incoming_transition ⟨"s0", StateType.INIT, [], []⟩
        (some ⟨"t0", TransitionType.EMISSION, "s1", []⟩)).get_num_of_incoming_transistions =
      (⟨"s0", StateType.INIT, [], []⟩ : State).get_num_of_incoming_transistions + 1 ∧
    (State.add_incoming_transition ⟨"s0", StateType.INIT, [], []⟩
        (some ⟨"t0", TransitionType.EMISSION, "s1", []⟩)).get_incoming_transtition "t0" =
      none := by
  have h := initial_state_incoming_counted_but_unreachable
      ⟨"s0", StateType.INIT, [], []⟩ rfl ⟨"t0", TransitionType.EMISSION, "s1", []⟩
  exact ⟨h.1, h.2 "t0"⟩

/-- Helper: the transition search loop misses when no list element has the
searched name. -/
theorem find_transition_loop_none (n : String) (l : List Transition)
    (h : ∀ tr ∈ l, tr.name ≠ n) : find_transition_loop n l = none := by
  induction l with
  | nil => rfl
  | cons tr rest ih =>
    have h1 : n ≠ tr.name := fun hc => h tr (List.mem_cons_self tr rest) hc.symm
    rw [find_transition_loop, if_neg h1]
    exact ih fun tr' htr' => h tr' (List.mem_cons_of_mem tr htr')

/-- Helper: the transition search loop returns the first exact-name match. -/
theorem find_transition_loop_first (n : String) (l1 l2 : List Transition)
    (tr : Transition) (h1 : ∀ tr' ∈ l1, tr'.name ≠ n) (h2 : tr.name = n) :
    find_transition_loop n (l1 ++ tr :: l2) = some tr := by
  induction l1 with
  | nil =>
    rw [List.nil_append, find_transition_loop, if_pos h2.symm]
  | cons a rest ih =>
    have ha : n ≠ a.name := fun hc => h1 a (List.mem_cons_self a rest) hc.symm
    rw [List.cons_append, find_transition_loop, if_neg ha]
    exact ih fun tr' htr' => h1 tr' (List.mem_cons_of_mem a htr')

/-- C8: the by-name incoming/outgoing lookups return None when the role
disallows the direction (INIT for incoming, FINAL for outgoing) regardless of
the list contents, return None when no exact-name match exists, and otherwise
return the first transition in the list whose name equals the argument. -/
theorem transition_lookup_first_exact_match (s : State) (n : String) :
    (s.type = StateType.INIT → s.get_incoming_transtition n = none) ∧
    (s.type = StateType.FINAL → s.get_outgoing_transtition n = none) ∧
    ((∀ tr ∈ s.get_incoming_transitions_list, tr.name ≠ n) →
        s.get_incoming_transtition n = none) ∧
    ((∀ tr ∈ s.get_outgoing_transitions_list, tr.name ≠ n) →
        s.get_outgoing_transtition n = none) ∧
    (∀ (l1 l2 : List Transition) (tr : Transition), s.type ≠ StateType.INIT →
        s.get_incoming_transitions_list = l1 ++ tr :: l2 →
        (∀ tr' ∈ l1, tr'.name ≠ n) → tr.name = n →
        s.get_incoming_transtition n = some tr) ∧
    (∀ (l1 l2 : List Transition) (tr : Transition), s.type ≠ StateType.FINAL →
        s.get_outgoing_transitions_list = l1 ++ tr :: l2 →
        (∀ tr' ∈ l1, tr'.name ≠ n) → tr.name = n →
        s.get_outgoing_transtition n = some tr) := by
  refine ⟨?_, ?_, ?_, ?_, ?_, ?_⟩
  · intro h
    simp [State.get_incoming_transtition, h]
  · intro h
    simp [State.get_outgoing_transtition, h]
  · intro h
    by_cases hI : s.type = StateType.INIT
    · simp [State.get_incoming_transtition, hI]
    · rw [State.get_incoming_transtition, if_pos hI]
      exact find_transition_loop_none n s.incoming h
  · intro h
    by_cases hF : s.type = StateType.FINAL
    · simp [State.get_outgoing_transtition, hF]
    · rw [State.get_outgoing_transtition, if_pos hF]
      exact find_transition_loop_none n s.outgoing h
  · intro l1 l2 tr hI hlist h1 h2
    rw [State.get_incoming_transtition, if_pos hI]
    rw [State.get_incoming_transitions_list] at hlist
    rw [hlist]
    exact find_transition_loop_first n l1 l2 tr h1 h2
  · intro l1 l2 tr hF hlist h1 h2
    rw [State.get_outgoing_transtition, if_pos hF]
    rw [State.get_outgoing_transitions_list] at hlist
    rw [hlist]
    exact find_transition_loop_first n l1 l2 tr h1 h2

/-- C8 witness: on a NORMAL state the first of two same-named incoming
transitions wins; an INIT state's incoming lookup and a FINAL state's outgoing
lookup return None even with matching list contents; a miss returns None. -/
theorem transition_lookup_first_exact_match_witness :
    State.get_incoming_transtition
        ⟨"sN", StateType.NORMAL,
         [⟨"dup", TransitionType.EMISSION, "x", []⟩,
          ⟨"dup", TransitionType.RECEPTION, "y", []⟩], []⟩ "dup" =
      some ⟨"dup", TransitionType.EMISSION, "x", []⟩ ∧
    State.get_incoming_transtition
        ⟨"sI", StateType.INIT, [⟨"dup", TransitionType.EMISSION, "x", []⟩], []⟩ "dup" =
      none ∧
    State.get_outgoing_transtition
        ⟨"sF", StateType.FINAL, [], [⟨"dup", TransitionType.EMISSION, "x", []⟩]⟩ "dup" =
      none ∧
    State.get_outgoing_transtition ⟨"sN2", StateType.NORMAL, [], []⟩ "zzz" = none := by
  refine ⟨?_, ?_, ?_, ?_⟩
  · exact (transition_lookup_first_exact_match _ "dup").2.2.2.2.1 []
      [⟨"dup", TransitionType.RECEPTION, "y", []⟩]
      ⟨"dup", TransitionType.EMISSION, "x", []⟩ (by simp) rfl (by simp) rfl
  · exact (transition_lookup_first_exact_match _ "dup").1 rfl
  · exact (transition_lookup_first_exact_match _ "dup").2.1 rfl
  · exact (transition_lookup_first_exact_match _ "zzz").2.2.2.1
      (by simp [State.get_outgoing_transitions_list])

/-- Helper: the state search loop misses when no list element has the
searched name. -/
theorem find_state_loop_none (n : String) (l : List State)
    (h : ∀ st ∈ l, st.get_name ≠ n) : find_state_loop n l = none := by
  induction l with
  | nil => rfl
  | cons st rest ih =>
    have h1 : n ≠ st.get_name := fun hc => h st (List.mem_cons_self st rest) hc.symm
    rw [find_state_loop, if_neg h1]
    exact ih fun st' hst' => h st' (List.mem_cons_of_mem st hst')

/-- Helper: the state search loop returns the first exact-name match. -/
theorem find_state_loop_first (n : String) (l1 l2 : List State) (st : State)
    (h1 : ∀ st' ∈ l1, st'.get_name ≠ n) (h2 : st.get_name = n) :
    find_state_loop n (l1 ++ st :: l2) = some st := by
  induction l1 with
  | nil =>
    rw [List.nil_append, find_state_loop, if_pos h2.symm]
  | cons a rest ih =>
    have ha : n ≠ a.get_name := fun hc => h1 a (List.mem_cons_self a rest) hc.symm
    rw [List.cons_append, find_state_loop, if_neg ha]
    exact ih fun st' hst' => h1 st' (List.mem_cons_of_mem a hst')

/-- C9: get_state returns None (without any failure) when no state name
matches, and otherwise the first state in insertion order whose name matches,
so with duplicate names the earliest-added state wins. -/
theorem graph_get_state_first_match (g : Graph) (n : String) :
    ((∀ st ∈ g.get_states_list, st.get_name ≠ n) → g.get_state n = none) ∧
    (∀ (l1 l2 : List State) (st : State),
        g.get_states_list = l1 ++ st :: l2 →
        (∀ st' ∈ l1, st'.get_name ≠ n) → st.get_name = n →
        g.get_state n = some st) := by
  constructor
  · intro h
    exact find_state_loop_none n g.states h
  · intro l1 l2 st hlist h1 h2
    rw [Graph.get_state, Graph.get_states_list] at *
    rw [hlist]
    exact find_state_loop_first n l1 l2 st h1 h2

/-- C9 witness: with two states both named A the earliest-added one (the
NORMAL one) is returned, and a lookup of an absent name returns None. -/
theorem graph_get_state_first_match_witness :
    Graph.get_state
        ⟨"G", [⟨"A", StateType.NORMAL, [], []⟩, ⟨"A", StateType.FINAL, [], []⟩]⟩ "A" =
      some ⟨"A", StateType.NORMAL, [], []⟩ ∧
    Graph.get_state ⟨"G", [⟨"A", StateType.NORMAL, [], []⟩]⟩ "nonexistent" = none := by
  constructor
  · exact (graph_get_state_first_match _ "A").2 [] [⟨"A", StateType.FINAL, [], []⟩]
      ⟨"A", StateType.NORMAL, [], []⟩ rfl (by simp) rfl
  · exact (graph_get_state_first_match _ "nonexistent").1 (by decide)

/-- Helper: when every token that contains the searched name as a substring
is colon-separated, the get_param_type loop returns (without failing) the
type piece of the last matching token, or its accumulator if none matches. -/
theorem get_param_type_loop_eq (n : String) (ps : List String) :
    ∀ acc, (∀ p ∈ ps, pyInStr n p = true → (pyTypeOf p).isSome) →
      get_param_type_loop n ps acc =
        Except.ok (overwrite_acc (last_substring_match_type n ps) acc) := by
  induction ps with
  | nil =>
    intro acc h
    rfl
  | cons p rest ih =>
    intro acc h
    have hrest : ∀ q ∈ rest, pyInStr n q = true → (pyTypeOf q).isSome :=
      fun q hq => h q (List.mem_cons_of_mem p hq)
    cases hp : pyInStr n p with
    | true =>
      obtain ⟨ty, hty⟩ := Option.isSome_iff_exists.mp
        (h p (List.mem_cons_self p rest) hp)
      rw [get_param_type_loop, if_pos hp, hty]
      show get_param_type_loop n rest (some ty) =
        Except.ok (overwrite_acc (last_substring_match_type n (p :: rest)) acc)
      rw [ih (some ty) hrest]
      cases hl : last_substring_match_type n rest with
      | some ty2 => simp [last_substring_match_type, hl, overwrite_acc]
      | none => simp [last_substring_match_type, hl, hp, hty, overwrite_acc]
    | false =>
      rw [get_param_type_loop, if_neg (by simp [hp])]
      rw [ih acc hrest]
      cases hl : last_substring_match_type n rest with
      | some ty2 => simp [last_substring_match_type, hl, overwrite_acc]
      | none => simp [last_substring_match_type, hl, hp, overwrite_acc]

/-- C1 counterexample: with parameters x:int then x:str, get_param_type of x
returns the type of the LAST matching token (str), not of the first (int):
the Python loop has no break, so a later match overwrites an earlier one. -/
theorem get_param_type_not_first_match :
    Transition.construct "t" TransitionType.EMISSION "s1" ["x:int", "x:str"] =
      Except.ok ⟨"t", TransitionType.EMISSION, "s1", ["x:int", "x:str"]⟩ ∧
    Transition.get_param_type
        ⟨"t", TransitionType.EMISSION, "s1", ["x:int", "x:str"]⟩ "x" =
      Except.ok (some "str") ∧
    (some "str" : Option String) ≠ some "int" := by
  refine ⟨rfl, rfl, ?_⟩
  decide

/-- C1 (amended): when every token containing param_name as a substring is
colon-separated, get_param_type returns the type string of the last matching
token in declaration order, and None when no token matches or params is
empty. -/
theorem get_param_type_returns_last_match (t : Transition) (n : String)
    (h : ∀ p ∈ t.params, pyInStr n p = true → (pyTypeOf p).isSome) :
    t.get_param_type n = Except.ok (last_substring_match_type n t.params) := by
  rw [Transition.get_param_type, get_param_type_loop_eq n t.params none h]
  cases last_substring_match_type n t.params with
  | some ty => rfl
  | none => rfl

/-- C1 witness: the amended theorem applied to the two-match transition, to an
empty-params transition, and to a no-match lookup. -/
theorem get_param_type_returns_last_match_witness :
    Transition.get_param_type
        ⟨"t", TransitionType.EMISSION, "s1", ["x:int", "x:str"]⟩ "x" =
      Except.ok (some "str") ∧
    Transition.get_param_type ⟨"t2", TransitionType.RECEPTION, "s2", []⟩ "x" =
      Except.ok none ∧
    Transition.get_param_type
        ⟨"t3", TransitionType.EMISSION, "s3", ["a:int"]⟩ "zz" =
      Except.ok none := by
  refine ⟨?_, ?_, ?_⟩
  · rw [get_param_type_returns_last_match
      ⟨"t", TransitionType.EMISSION, "s1", ["x:int", "x:str"]⟩ "x" (by decide)]
    rfl
  · rw [get_param_type_returns_last_match
      ⟨"t2", TransitionType.RECEPTION, "s2", []⟩ "x" (by decide)]
    rfl
  · rw [get_param_type_returns_last_match
      ⟨"t3", TransitionType.EMISSION, "s3", ["a:int"]⟩ "zz" (by decide)]
    rfl

/-- Helper: when every token is colon-separated, the get_data_types loop
returns (without failing) the first-seen-order deduplication of the declared
types, continuing from its accumulator. -/
theorem get_data_types_loop_eq (ps : List String) :
    ∀ acc, (∀ p ∈ ps, (pyTypeOf p).isSome) →
      get_data_types_loop ps acc =
        Except.ok (first_seen_dedup_from acc (declared_types ps)) := by
  induction ps with
  | nil =>
    intro acc h
    rfl
  | cons p rest ih =>
    intro acc h
    have hrest : ∀ q ∈ rest, (pyTypeOf q).isSome :=
      fun q hq => h q (List.mem_cons_of_mem p hq)
    obtain ⟨ty, hty⟩ := Option.isSome_iff_exists.mp (h p (List.mem_cons_self p rest))
    have hdecl : declared_types (p :: rest) = ty :: declared_types rest := by
      simp [declared_types, List.filterMap_cons, hty]
    rw [get_data_types_loop, hty, hdecl]
    show (if ty ∈ acc then get_data_types_loop rest acc
          else get_data_types_loop rest (acc ++ [ty])) =
        Except.ok (first_seen_dedup_from acc (ty :: declared_types rest))
    by_cases hmem : ty ∈ acc
    · rw [if_pos hmem]
      rw [ih acc hrest]
      rw [first_seen_dedup_from, if_pos hmem]
    · rw [if_neg hmem]
      rw [ih (acc ++ [ty]) hrest]
      rw [first_seen_dedup_from, if_neg hmem]

/-- C2 counterexample: a non-internal transition with the colon-less token
"foo" is constructed without validation, but both accessors then fail with
the embedded IndexError instead of returning an absent result. -/
theorem malformed_token_raises :
    Transition.construct "t" TransitionType.EMISSION "s1" ["foo"] =
      Except.ok ⟨"t", TransitionType.EMISSION, "s1", ["foo"]⟩ ∧
    Transition.get_data_types ⟨"t", TransitionType.EMISSION, "s1", ["foo"]⟩ =
      Except.error "IndexError: list index out of range" ∧
    Transition.get_param_type ⟨"t", TransitionType.EMISSION, "s1", ["foo"]⟩ "foo" =
      Except.error "IndexError: list index out of range" :=
  ⟨rfl, rfl, rfl⟩

/-- C2 (amended): construction of a non-TAU transition performs no validation
at all and succeeds on any params list, and on a transition whose tokens are
all colon-separated neither accessor fails (the IndexError only arises from a
colon-less token: always in get_data_types, and in get_param_type when such a
token matches the searched name). -/
theorem construction_unvalidated_accessors_no_raise :
    (∀ (nm ns : String) (k : TransitionType) (ps : List String),
        k ≠ TransitionType.TAU →
        Transition.construct nm k ns ps = Except.ok ⟨nm, k, ns, ps⟩) ∧
    (∀ (t : Transition) (n : String),
        (∀ p ∈ t.params, (pyTypeOf p).isSome) →
        (t.get_param_type n).isOk = true ∧ (t.get_data_types).isOk = true) := by
  constructor
  · intro nm ns k ps hk
    simp [Transition.construct, hk]
  · intro t n h
    constructor
    · rw [Transition.get_param_type,
        get_param_type_loop_eq n t.params none (fun p hp _ => h p hp)]
      rfl
    · rw [Transition.get_data_types, get_data_types_loop_eq t.params [] h]
      rfl

/-- C2 witness: a reception transition with two malformed (but colon-holding)
tokens and one well-formed token constructs fine, and its accessors return
without failure. -/
theorem construction_unvalidated_accessors_no_raise_witness :
    Transition.construct "t2" TransitionType.RECEPTION "s9" [":", "x-:y", "a:int"] =
      Except.ok ⟨"t2", TransitionType.RECEPTION, "s9", [":", "x-:y", "a:int"]⟩ ∧
    (Transition.get_param_type
        ⟨"t2", TransitionType.RECEPTION, "s9", [":", "x-:y", "a:int"]⟩ "zz").isOk = true ∧
    (Transition.get_data_types
        ⟨"t2", TransitionType.RECEPTION, "s9", [":", "x-:y", "a:int"]⟩).isOk = true := by
  have h1 := construction_unvalidated_accessors_no_raise.1 "t2" "s9"
      TransitionType.RECEPTION [":", "x-:y", "a:int"] (by decide)
  have h2 := construction_unvalidated_accessors_no_raise.2
      ⟨"t2", TransitionType.RECEPTION, "s9", [":", "x-:y", "a:int"]⟩ "zz" (by decide)
  exact ⟨h1, h2.1, h2.2⟩

/-- C7 counterexample: on the colon-less token "flag", get_data_types fails
with the embedded IndexError instead of returning the (empty) deduplicated
type sequence. -/
theorem get_data_types_raises_on_colonless_token :
    Transition.get_data_types ⟨"u", TransitionType.RECEPTION, "s2", ["flag"]⟩ =
      Except.error "IndexError: list index out of range" ∧
    (Except.error "IndexError: list index out of range" : Except String (List String)) ≠
      Except.ok (first_seen_dedup (declared_types ["flag"])) := by
  refine ⟨rfl, ?_⟩
  intro hc
  cases hc

/-- C7 (amended): on a transition whose parameter tokens are all
colon-separated, get_data_types returns the declared type strings with
duplicates removed in first-seen order, and the empty sequence when params is
empty. -/
theorem get_data_types_first_seen_dedup (t : Transition)
    (h : ∀ p ∈ t.params, (pyTypeOf p).isSome) :
    t.get_data_types = Except.ok (first_seen_dedup (declared_types t.params)) := by
  rw [Transition.get_data_types, get_data_types_loop_eq t.params [] h]
  rfl

/-- C7 witness: the spec's own example (a:int, b:str, c:int yields int, str)
and the empty-params case. -/
theorem get_data_types_first_seen_dedup_witness :
    Transition.get_data_types
        ⟨"t", TransitionType.EMISSION, "s", ["a:int", "b:str", "c:int"]⟩ =
      Except.ok ["int", "str"] ∧
    Transition.get_data_types ⟨"t0", TransitionType.TAU, "s", []⟩ = Except.ok [] := by
  constructor
  · rw [get_data_types_first_seen_dedup
      ⟨"t", TransitionType.EMISSION, "s", ["a:int", "b:str", "c:int"]⟩ (by decide)]
    rfl
  · rw [get_data_types_first_seen_dedup ⟨"t0", TransitionType.TAU, "s", []⟩ (by decide)]
    rfl

/-- C3 witness: the partition theorem applied to a concrete NORMAL state with
one outgoing transition of each kind. -/
theorem outgoing_classification_partition_witness :
    (⟨"e1", TransitionType.EMISSION, "x", []⟩ : Transition) ∉
      (⟨"s", StateType.NORMAL, [],
        [⟨"e1", TransitionType.EMISSION, "x", []⟩,
         ⟨"r1", TransitionType.RECEPTION, "y", []⟩,
         ⟨"i1", TransitionType.TAU, "z", []⟩]⟩ : State).get_outgoing_reception_list ∧
    ((⟨"s", StateType.NORMAL, [],
        [⟨"e1", TransitionType.EMISSION, "x", []⟩,
         ⟨"r1", TransitionType.RECEPTION, "y", []⟩,
         ⟨"i1", TransitionType.TAU, "z", []⟩]⟩ : State).get_outgoing_emission_list ++
      (⟨"s", StateType.NORMAL, [],
        [⟨"e1", TransitionType.EMISSION, "x", []⟩,
         ⟨"r1", TransitionType.RECEPTION, "y", []⟩,
         ⟨"i1", TransitionType.TAU, "z", []⟩]⟩ : State).get_outgoing_reception_list ++
      (⟨"s", StateType.NORMAL, [],
        [⟨"e1", TransitionType.EMISSION, "x", []⟩,
         ⟨"r1", TransitionType.RECEPTION, "y", []⟩,
         ⟨"i1", TransitionType.TAU, "z", []⟩]⟩ : State).get_outgoing_tau_list).Perm
      (⟨"s", StateType.NORMAL, [],
        [⟨"e1", TransitionType.EMISSION, "x", []⟩,
         ⟨"r1", TransitionType.RECEPTION, "y", []⟩,
         ⟨"i1", TransitionType.TAU, "z", []⟩]⟩ : State).get_outgoing_transitions_list := by
  constructor
  · exact ((outgoing_classification_partition
      ⟨"s", StateType.NORMAL, [],
        [⟨"e1", TransitionType.EMISSION, "x", []⟩,
         ⟨"r1", TransitionType.RECEPTION, "y", []⟩,
         ⟨"i1", TransitionType.TAU, "z", []⟩]⟩).2.1
      ⟨"e1", TransitionType.EMISSION, "x", []⟩ (by decide)).1
  · exact (outgoing_classification_partition
      ⟨"s", StateType.NORMAL, [],
        [⟨"e1", TransitionType.EMISSION, "x", []⟩,
         ⟨"r1", TransitionType.RECEPTION, "y", []⟩,
         ⟨"i1", TransitionType.TAU, "z", []⟩]⟩).2.2.2
